import Mathlib

set_option maxRecDepth 8000

/-!
Verification of `lib/spack/spack/patch.py` (Spack patch subsystem).

The Python module is shallowly embedded: pure helpers (`file_hash`,
`hashlib.md5`, `base64.b32encode`, `bytes.lower`) become Lean functions on
byte lists (`List Nat`, each byte `< 256`); the filesystem, the package
registry lookup (`spack.repo.dirname_for_package_name`) and the external
patch tool become components of an `Env` record; side effects of a call are
returned as an explicit list of `Event`s; Python exceptions become the
`PyError` sum carried by `Except`.
-/

namespace SpackPatch

/-! ## Byte-level models of the Python library functions used by patch.py -/

/-- 32-bit left rotation on a word `x < 2^32` (hashlib.md5 internals). -/
def rotl32 (x n : Nat) : Nat :=
  ((x <<< n) % 4294967296) ||| (x >>> (32 - n))

/-- Little-endian byte decomposition of `n` into `k` bytes. -/
def leBytes : Nat → Nat → List Nat
  | _, 0 => []
  | n, k + 1 => (n % 256) :: leBytes (n / 256) k

/-- Interpret groups of 4 bytes as little-endian 32-bit words. -/
def toWordsLE : List Nat → List Nat
  | b0 :: b1 :: b2 :: b3 :: rest =>
      (b0 + b1 * 256 + b2 * 65536 + b3 * 16777216) :: toWordsLE rest
  | _ => []

/-- The 64 MD5 round shift amounts. -/
def md5_s : List Nat :=
  [7, 12, 17, 22, 7, 12, 17, 22, 7, 12, 17, 22, 7, 12, 17, 22,
   5, 9, 14, 20, 5, 9, 14, 20, 5, 9, 14, 20, 5, 9, 14, 20,
   4, 11, 16, 23, 4, 11, 16, 23, 4, 11, 16, 23, 4, 11, 16, 23,
   6, 10, 15, 21, 6, 10, 15, 21, 6, 10, 15, 21, 6, 10, 15, 21]

/-- The 64 MD5 sine-derived additive constants. -/
def md5_K : List Nat :=
  [0xd76aa478, 0xe8c7b756, 0x242070db, 0xc1bdceee,
   0xf57c0faf, 0x4787c62a, 0xa8304613, 0xfd469501,
   0x698098d8, 0x8b44f7af, 0xffff5bb1, 0x895cd7be,
   0x6b901122, 0xfd987193, 0xa679438e, 0x49b40821,
   0xf61e2562, 0xc040b340, 0x265e5a51, 0xe9b6c7aa,
   0xd62f105d, 0x02441453, 0xd8a1e681, 0xe7d3fbc8,
   0x21e1cde6, 0xc33707d6, 0xf4d50d87, 0x455a14ed,
   0xa9e3e905, 0xfcefa3f8, 0x676f02d9, 0x8d2a4c8a,
   0xfffa3942, 0x8771f681, 0x6d9d6122, 0xfde5380c,
   0xa4beea44, 0x4bdecfa9, 0xf6bb4b60, 0xbebfbc70,
   0x289b7ec6, 0xeaa127fa, 0xd4ef3085, 0x04881d05,
   0xd9d4d039, 0xe6db99e5, 0x1fa27cf8, 0xc4ac5665,
   0xf4292244, 0x432aff97, 0xab9423a7, 0xfc93a039,
   0x655b59c3, 0x8f0ccc92, 0xffeff47d, 0x85845dd1,
   0x6fa87e4f, 0xfe2ce6e0, 0xa3014314, 0x4e0811a1,
   0xf7537e82, 0xbd3af235, 0x2ad7d2bb, 0xeb86d391]

/-- One MD5 round step on state `(a, b, c, d)` with message words `M`. -/
def md5_step (M : List Nat) (i : Nat) : Nat × Nat × Nat × Nat → Nat × Nat × Nat × Nat
  | (a, b, c, d) =>
    let fg : Nat × Nat :=
      if i < 16 then ((b &&& c) ||| ((b ^^^ 0xffffffff) &&& d), i)
      else if i < 32 then ((d &&& b) ||| ((d ^^^ 0xffffffff) &&& c), (5 * i + 1) % 16)
      else if i < 48 then (b ^^^ c ^^^ d, (3 * i + 5) % 16)
      else (c ^^^ (b ||| (d ^^^ 0xffffffff)), (7 * i) % 16)
    let f := (fg.1 + a + md5_K.getD i 0 + M.getD fg.2 0) % 4294967296
    (d, (b + rotl32 f (md5_s.getD i 0)) % 4294967296, b, c)

/-- Process one 64-byte MD5 chunk, updating the running state. -/
def md5_chunk (h : Nat × Nat × Nat × Nat) (chunk : List Nat) : Nat × Nat × Nat × Nat :=
  let M := toWordsLE chunk
  let r := (List.range 64).foldl (fun st i => md5_step M i st) h
  ((h.1 + r.1) % 4294967296, (h.2.1 + r.2.1) % 4294967296,
   (h.2.2.1 + r.2.2.1) % 4294967296, (h.2.2.2 + r.2.2.2) % 4294967296)

/-- MD5 padding: append `0x80`, zeros to 56 mod 64, then the 64-bit
little-endian bit length. -/
def md5_pad (msg : List Nat) : List Nat :=
  let len := msg.length
  msg ++ [0x80] ++ List.replicate ((119 - len % 64) % 64) 0
      ++ leBytes ((len * 8) % 18446744073709551616) 8

/-- Split a list into groups of 64, with explicit fuel for structural
recursion. -/
def splitChunks : Nat → List Nat → List (List Nat)
  | 0, _ => []
  | n + 1, l => l.take 64 :: splitChunks n (l.drop 64)

/-- `hashlib.md5(msg).digest()`: the 16-byte MD5 digest of a byte string. -/
def md5 (msg : List Nat) : List Nat :=
  let p := md5_pad msg
  let cs := splitChunks (p.length / 64) p
  let r := cs.foldl md5_chunk (0x67452301, 0xefcdab89, 0x98badcfe, 0x10325476)
  leBytes r.1 4 ++ leBytes r.2.1 4 ++ leBytes r.2.2.1 4 ++ leBytes r.2.2.2 4

/-- The RFC 4648 base-32 alphabet. -/
def b32alphabet : List Char := "ABCDEFGHIJKLMNOPQRSTUVWXYZ234567".data

/-- Encode one group of 1 to 5 bytes as 8 base-32 characters, padding with
`=` (base64.b32encode internals). -/
def b32group (bytes : List Nat) : List Char :=
  let k := bytes.length
  let n := bytes.foldl (fun acc b => acc * 256 + b % 256) 0
  let c := (8 * k + 4) / 5
  let n := n <<< (5 * c - 8 * k)
  ((List.range c).map fun i => b32alphabet.getD ((n >>> (5 * (c - 1 - i))) % 32) 'A')
    ++ List.replicate (8 - c) '='

/-- Split into groups of 5 bytes and base-32 encode each, with fuel. -/
def b32rec : Nat → List Nat → List Char
  | 0, _ => []
  | n + 1, l => if l = [] then [] else b32group (l.take 5) ++ b32rec n (l.drop 5)

/-- `base64.b32encode`: RFC 4648 base-32 encoding of a byte string. -/
def b32encode (bytes : List Nat) : String :=
  String.mk (b32rec (bytes.length / 5 + 1) bytes)

/-- ASCII lowercasing of one character (`bytes.lower` on one byte). -/
def asciiLower (c : Char) : Char :=
  if 'A' ≤ c ∧ c ≤ 'Z' then Char.ofNat (c.toNat + 32) else c

/-- `s.lower()`: ASCII lowercasing of a string. -/
def strLower (s : String) : String := String.mk (s.data.map asciiLower)

/-- `b.isPrefixOf a` on character lists, as a Bool. -/
def isPre : List Char → List Char → Bool
  | [], _ => true
  | _ :: _, [] => false
  | c :: cs, d :: ds => c = d && isPre cs ds

/-- Substring occurrence on character lists. -/
def inSub (needle : List Char) : List Char → Bool
  | [] => isPre needle []
  | d :: ds => isPre needle (d :: ds) || inSub needle ds

/-- Python's `needle in hay` on strings: substring containment. -/
def pyIn (needle hay : String) : Bool := inSub needle.data hay.data

/-- `s.startswith(t)` on strings. -/
def strStarts (s t : String) : Bool := isPre t.data s.data

/-- `s.endswith(t)` on strings. -/
def strEnds (s t : String) : Bool := isPre t.data.reverse s.data.reverse

/-- `os.path.join` for two POSIX path components, as used by
`llnl.util.filesystem.join_path`. -/
def join_path (a b : String) : String :=
  if strStarts b "/" then b
  else if a = "" || strEnds a "/" then a ++ b
  else a ++ "/" ++ b

/-! ## Data model of patch.py -/

/-- The Python value passed as the `level` argument: either an `int` or some
non-integer object (what `isinstance(level, int)` distinguishes). -/
inductive PyLevel
  | int (n : Int)
  | nonInt
deriving DecidableEq, Repr

/-- `str(level)` as used in the tool invocation. -/
def PyLevel.str : PyLevel → String
  | .int n => toString n
  | .nonInt => "<object>"

/-- Python exceptions that the embedded code can raise.

`noSuchPatchFileError` models the `NoSuchPatchFileError` class of patch.py
(message, package, path fields as set in its `__init__`).
`nameError` models the interpreter's `NameError` for an unbound name.
`processError` models the error raised by the `spack.util.executable`
wrapper when the subprocess exits non-zero (modelled from the spec: that
module is not under src/; the spec says the tool is "invoked as a
subprocess" and a non-zero exit surfaces the "exit status/output").
`patchApplyError` is the `PatchApplyError` named by the spec's error
taxonomy, carrying package name, specifier, strip level and tool output;
patch.py defines no such class, and the constructor exists here only so
the spec's claim about it can be stated. -/
inductive PyError
  | valueError (msg : String)
  | nameError (name : String)
  | typeError (msg : String)
  | ioError (path : String)
  | noSuchPatchFileError (message package path : String)
  | processError (args : List String) (status : Nat) (out : String)
  | patchApplyError (package specifier : String) (level : Int) (out : String)
deriving DecidableEq, Repr

/-- Whether an error is the spec's `PatchApplyError`. -/
def PyError.isPatchApplyError : PyError → Bool
  | .patchApplyError _ _ _ _ => true
  | _ => false

/-- Whether an error is patch.py's `NoSuchPatchFileError`. -/
def PyError.isNoSuchPatchFile : PyError → Bool
  | .noSuchPatchFileError _ _ _ => true
  | _ => false

/-- Observable side effects of a call, in order of occurrence. -/
inductive Event
  | chdirToSource
  | stageFetch (url : String)
  | stageDestroy (url : String)
  | readFile (path : String)
  | runPatchTool (args : List String)
deriving DecidableEq, Repr

/-- The external world patch.py interacts with: the filesystem (regular
files with their byte contents; `os.path.isfile p` iff `fs p` is `some`),
the package registry (`spack.repo.dirname_for_package_name`), and the
external patch tool (arguments to exit status and captured output). -/
structure Env where
  fs : String → Option (List Nat)
  dirname_for_package_name : String → String
  tool : List String → Nat × String

/-- The `Patch` object: fields as assigned by `Patch.__init__`. -/
structure Patch where
  pkg_name : String
  path_or_url : String
  path : Option String
  url : Option String
  level : PyLevel
  cached_file_hash : Option String
deriving DecidableEq, Repr

/-- The level validation of `Patch.__init__` line 55:
`not isinstance(self.level, int) or not self.level >= 0`. -/
def levelBad : PyLevel → Bool
  | .int n => decide (n < 0)
  | .nonInt => true

/-- The message of patch.py's `NoSuchPatchFileError.__init__`:
`"No such patch file for package %s: %s" % (package, path)`. -/
def noSuchPatchFileMessage (package path : String) : String :=
  "No such patch file for package " ++ package ++ ": " ++ path

/-- `Patch.__init__(self, pkg, path_or_url, level)`.

Field assignments, then the level check, then the `'://' in path_or_url`
classification; on the local branch the path is resolved against the
package directory and checked with `os.path.isfile`. When that check
fails, the source line 64 is `raise NoSuchPatchFileError(pkg_name,
self.path)`: the name `pkg_name` is unbound there (the attribute is
`self.pkg_name`), so evaluating the raise expression itself raises
`NameError("pkg_name")` before any `NoSuchPatchFileError` is built. -/
def Patch.init (env : Env) (pkgName path_or_url : String) (level : PyLevel) :
    Except PyError Patch :=
  let p : Patch :=
    { pkg_name := pkgName, path_or_url := path_or_url, path := none,
      url := none, level := level, cached_file_hash := none }
  if levelBad level then
    .error (.valueError "Patch level needs to be a non-negative integer.")
  else if pyIn "://" path_or_url then
    .ok { p with url := some path_or_url }
  else
    let pkg_dir := env.dirname_for_package_name pkgName
    let pt := join_path pkg_dir path_or_url
    if (env.fs pt).isSome then .ok { p with path := some pt }
    else .error (.nameError "pkg_name")

/-- The module-level `file_hash(path)` digest formula:
`base64.b32encode(hashlib.md5(F.read()).digest()).lower()` applied to the
file's bytes. -/
def file_hash_bytes (content : List Nat) : String :=
  strLower (b32encode (md5 content))

/-- The module-level `file_hash(path)`: open the file, read all bytes,
digest. `open` on a missing file raises IOError; `open(None)` raises
TypeError. -/
def file_hash (env : Env) : Option String → Except PyError String × List Event
  | none => (.error (.typeError "coercing to Unicode: NoneType"), [])
  | some pt =>
    match env.fs pt with
    | none => (.error (.ioError pt), [])
    | some content => (.ok (file_hash_bytes content), [.readFile pt])

/-- `Patch.apply(self, stage)`.

The call first runs `stage.chdir_to_source()` (the stage collaborator
positions the working directory). Then `with self.get_patch() as
patch_file`: for a remote patch `get_patch` returns `get_url(self.url)`,
whose body `spack.stage.Stage(self.url)` refers to the unbound name
`self` (it is a module-level function), so entering the context raises
`NameError("self")` — no Stage is created and no fetch happens. For a
local patch `get_file` yields the stored path; the body recomputes
`self._file_hash = file_hash(patch_file)` and then invokes
`_patch('-s', '-p', str(self.level), '-i', patch_file)`, which raises a
process error if the tool exits non-zero. -/
def Patch.apply (p : Patch) (env : Env) : Except PyError Patch × List Event :=
  match p.url with
  | some _ => (.error (.nameError "self"), [.chdirToSource])
  | none =>
    match file_hash env p.path with
    | (.error e, ev) => (.error e, .chdirToSource :: ev)
    | (.ok h, ev) =>
      let pt := p.path.getD ""
      let args := ["-s", "-p", p.level.str, "-i", pt]
      let r := env.tool args
      if r.1 = 0 then
        (.ok { p with cached_file_hash := some h },
         .chdirToSource :: ev ++ [.runPatchTool args])
      else
        (.error (.processError args r.1 r.2),
         .chdirToSource :: ev ++ [.runPatchTool args])

/-- The uncached branch of the `file_hash` property: `with self.get_patch()
as patch_file: self._file_hash = file_hash(patch_file)`. Remote patches hit
the same unbound-`self` NameError in `get_url` as `apply` does. -/
def Patch.fileHashCompute (p : Patch) (env : Env) :
    Except PyError (Patch × String) × List Event :=
  match p.url with
  | some _ => (.error (.nameError "self"), [])
  | none =>
    match file_hash env p.path with
    | (.error e, ev) => (.error e, ev)
    | (.ok h, ev) => (.ok ({ p with cached_file_hash := some h }, h), ev)

/-- The `file_hash` property (the spec's `fingerprint()`): `if not
self._file_hash:` recompute under `get_patch`, else return the cached
value. The Python truthiness test treats both `None` and the empty string
as "not yet computed". Returns the (possibly updated) object and the
value, with the events performed. -/
def Patch.file_hash (p : Patch) (env : Env) :
    Except PyError (Patch × String) × List Event :=
  match p.cached_file_hash with
  | some h => if h = "" then p.fileHashCompute env else (.ok (p, h), [])
  | none => p.fileHashCompute env

/-- Whether an event is a staging acquisition/cleanup or a tool run. -/
def Event.isAcquisitionOrTool : Event → Bool
  | .stageFetch _ => true
  | .stageDestroy _ => true
  | .runPatchTool _ => true
  | _ => false

/-- Whether an event is an external tool invocation. -/
def Event.isToolRun : Event → Bool
  | .runPatchTool _ => true
  | _ => false

/-- Sanity: MD5 of the empty byte string is the standard test vector. -/
theorem md5_empty :
    md5 [] = [0xd4, 0x1d, 0x8c, 0xd9, 0x8f, 0x00, 0xb2, 0x04,
              0xe9, 0x80, 0x09, 0x98, 0xec, 0xf8, 0x42, 0x7e] := by decide

/-- Sanity: `base64.b32encode(hashlib.md5(b"abc").digest()).lower()` matches
CPython's output. -/
theorem b32_md5_abc :
    strLower (b32encode (md5 [0x61, 0x62, 0x63])) = "saavbgb42jh3bvuwh56sryl7oi======" := by
  decide

/-! ## Concrete fixtures for closed theorems and witnesses -/

/-- A package directory lookup rooted at `/spack/repo`, an empty
filesystem, and a tool that always succeeds. -/
def envMissing : Env where
  fs := fun _ => none
  dirname_for_package_name := fun n => "/spack/repo/" ++ n
  tool := fun _ => (0, "")

/-- Same registry, with one regular file `/spack/repo/foo/fix.patch`
holding the bytes `"hi"`, and a tool that always succeeds. -/
def envHi : Env where
  fs := fun pt => if pt = "/spack/repo/foo/fix.patch" then some [104, 105] else none
  dirname_for_package_name := fun n => "/spack/repo/" ++ n
  tool := fun _ => (0, "")

/-- Same filesystem, but the patch tool exits with status 1 and message
"malformed patch". -/
def envToolFail : Env where
  fs := fun pt => if pt = "/spack/repo/foo/fix.patch" then some [104, 105] else none
  dirname_for_package_name := fun n => "/spack/repo/" ++ n
  tool := fun _ => (1, "malformed patch")

/-- The Patch built by `Patch.init envHi "foo" "fix.patch" (.int 1)`. -/
def patchLocal : Patch where
  pkg_name := "foo"
  path_or_url := "fix.patch"
  path := some "/spack/repo/foo/fix.patch"
  url := none
  level := .int 1
  cached_file_hash := none

/-- The Patch built by
`Patch.init env "foo" "https://example.org/p.patch" (.int 0)`. -/
def patchRemote : Patch where
  pkg_name := "foo"
  path_or_url := "https://example.org/p.patch"
  path := none
  url := some "https://example.org/p.patch"
  level := .int 0
  cached_file_hash := none

/-- Sanity: local construction resolves the path against the package
directory. -/
theorem init_local_ok :
    Patch.init envHi "foo" "fix.patch" (.int 1) = .ok patchLocal := by rfl

/-- Sanity: the fingerprint of the bytes `"hi"` matches CPython's
`base64.b32encode(hashlib.md5(b"hi").digest()).lower()`. -/
theorem file_hash_bytes_hi :
    file_hash_bytes [104, 105] = "jh3iuxeespwcyc7urgbbyip4hm======" := by decide

/-! ## Shared lemmas -/

theorem leBytes_length (k : Nat) : ∀ n, (leBytes n k).length = k := by
  induction k with
  | zero => intro n; rfl
  | succ k ih => intro n; simp [leBytes, ih]

theorem md5_length (B : List Nat) : (md5 B).length = 16 := by
  unfold md5
  simp [List.length_append, leBytes_length]

theorem b32group_ne_nil (l : List Nat) : b32group l ≠ [] := by
  apply List.ne_nil_of_length_pos
  unfold b32group
  simp only [List.length_append, List.length_map, List.length_range,
    List.length_replicate]
  omega

theorem b32encode_ne_empty (l : List Nat) (h : l ≠ []) : b32encode l ≠ "" := by
  unfold b32encode
  intro hc
  have hdata : b32rec (l.length / 5 + 1) l = [] := congrArg String.data hc
  rw [b32rec] at hdata
  simp [h] at hdata
  exact b32group_ne_nil _ hdata.1

theorem file_hash_bytes_ne_empty (B : List Nat) : file_hash_bytes B ≠ "" := by
  unfold file_hash_bytes strLower
  intro hc
  have hdata : ((b32encode (md5 B)).data.map asciiLower) = [] := congrArg String.data hc
  rw [List.map_eq_nil_iff] at hdata
  apply b32encode_ne_empty (md5 B)
  · intro hnil
    have := md5_length B
    rw [hnil] at this
    simp at this
  · exact congrArg String.mk hdata

/-- The uncached fingerprint computation on a local patch reads the file
once and returns the digest formula applied to its bytes. -/
theorem file_hash_uncached (env : Env) (p : Patch) (pt : String) (B : List Nat)
    (hu : p.url = none) (hp : p.path = some pt) (hB : env.fs pt = some B) :
    p.fileHashCompute env =
      (.ok ({ p with cached_file_hash := some (file_hash_bytes B) },
            file_hash_bytes B), [.readFile pt]) := by
  unfold Patch.fileHashCompute file_hash
  simp only [hu, hp, hB]

/-- A successful fingerprint call leaves the returned value in the cache,
and that value is a non-empty string. -/
theorem fileHash_ok_cache (env : Env) (p p' : Patch) (h : String) (tr : List Event)
    (hfh : p.file_hash env = (.ok (p', h), tr)) :
    p'.cached_file_hash = some h ∧ h ≠ "" := by
  have compute : ∀ (hq : p.fileHashCompute env = (.ok (p', h), tr)),
      p'.cached_file_hash = some h ∧ h ≠ "" := by
    intro hq
    unfold Patch.fileHashCompute file_hash at hq
    rcases hu : p.url with _ | u
    · simp only [hu] at hq
      rcases hpt : p.path with _ | pt
      · simp [hpt] at hq
      · simp only [hpt] at hq
        rcases hB : env.fs pt with _ | B
        · simp [hB] at hq
        · simp only [hB, Except.ok.injEq, Prod.mk.injEq] at hq
          obtain ⟨⟨hp', hh⟩, _⟩ := hq
          subst hh
          subst hp'
          exact ⟨rfl, file_hash_bytes_ne_empty B⟩
    · simp [hu] at hq
  unfold Patch.file_hash at hfh
  rcases hc : p.cached_file_hash with _ | h0
  · simp only [hc] at hfh
    exact compute hfh
  · simp only [hc] at hfh
    by_cases h0e : h0 = ""
    · rw [if_pos h0e] at hfh
      exact compute hfh
    · rw [if_neg h0e] at hfh
      simp only [Prod.mk.injEq, Except.ok.injEq] at hfh
      obtain ⟨⟨hp', hh⟩, _⟩ := hfh
      subst hh
      exact ⟨hp' ▸ hc, h0e⟩

/-! ## Claim theorems -/

/-- C1: constructing a Patch from a local specifier whose resolved path is
not a regular file does NOT fail with `NoSuchPatchFileError` carrying the
package name and path: line 64 evaluates the unbound name `pkg_name`, so
the construction fails with `NameError("pkg_name")` instead. The code
contradicts its own `NoSuchPatchFileError` class and docstring, whose
message would have carried both fields. -/
theorem c1_missing_local_file_raises_unbound_name :
    Patch.init envMissing "foo" "missing.patch" (.int 1) =
      .error (.nameError "pkg_name") ∧
    (PyError.nameError "pkg_name").isNoSuchPatchFile = false ∧
    noSuchPatchFileMessage "foo" "/spack/repo/foo/missing.patch" =
      "No such patch file for package foo: /spack/repo/foo/missing.patch" :=
  ⟨rfl, rfl, rfl⟩

/-- C2: a remote Patch is constructed without touching the environment, but
`apply()` does NOT perform one fetch, one tool run and a cleanup: the
module-level `get_url` refers to the unbound name `self`, so `apply()`
raises `NameError("self")` right after the chdir — no staging acquisition,
no tool invocation, no temporary resource is ever created. -/
theorem c2_remote_apply_unbound_self :
    Patch.init envMissing "foo" "https://example.org/p.patch" (.int 0) =
      .ok patchRemote ∧
    patchRemote.apply envHi = (.error (.nameError "self"), [.chdirToSource]) ∧
    (patchRemote.apply envHi).2.filter Event.isAcquisitionOrTool = [] :=
  ⟨rfl, rfl, rfl⟩

/-- C7: `apply()` does not pass any "apply only if not already applied"
flag: the comment above the invocation announces `-N`, but the argument
list is exactly `['-s', '-p', level, '-i', path]`, with no `-N`. -/
theorem c7_no_forward_flag_passed :
    patchLocal.apply envHi =
      (.ok { patchLocal with
              cached_file_hash := some "jh3iuxeespwcyc7urgbbyip4hm======" },
       [.chdirToSource, .readFile "/spack/repo/foo/fix.patch",
        .runPatchTool ["-s", "-p", "1", "-i", "/spack/repo/foo/fix.patch"]]) ∧
    "-N" ∉ ["-s", "-p", "1", "-i", "/spack/repo/foo/fix.patch"] :=
  ⟨rfl, by decide⟩

/-- C9 counterexample: `apply()` itself triggers the positioning of the
working directory — its own event trace contains the
`stage.chdir_to_source()` call — refuting the claim that positioning
happens entirely before `apply()` is called. -/
theorem c9_counterexample_chdir_inside_apply :
    Event.chdirToSource ∈ (patchLocal.apply envHi).2 := by
  have htr : (patchLocal.apply envHi).2 =
      [.chdirToSource, .readFile "/spack/repo/foo/fix.patch",
       .runPatchTool ["-s", "-p", "1", "-i", "/spack/repo/foo/fix.patch"]] := rfl
  rw [htr]
  exact List.mem_cons_self _ _

/-- C9 (amended): `apply()` performs no direct chdir of its own, but it
delegates directory positioning to the stage collaborator by calling
`stage.chdir_to_source()` as the very first action of every call — the
positioning happens inside `apply()`, not before it. -/
theorem c9_apply_triggers_chdir_first (p : Patch) (env : Env) :
    ((p.apply env).2).head? = some .chdirToSource := by
  unfold Patch.apply
  rcases p.url with _ | u
  · rcases file_hash env p.path with ⟨r, ev⟩
    rcases r with e | hv
    · rfl
    · simp only
      split <;> rfl
  · rfl

/-- C9 witness: the first event of a concrete `apply()` call is the
delegated chdir. -/
theorem c9_witness :
    ((patchRemote.apply envMissing).2).head? = some .chdirToSource :=
  c9_apply_triggers_chdir_first patchRemote envMissing

/-- C3: on a readable local patch file with bytes `B`, `fingerprint()`
(the `file_hash` property) returns the MD5 digest of `B` encoded as
base-32 text and lowercased, caching it and reading the file once; and any
two Patch instances over files with identical bytes produce the same
fingerprint. -/
theorem c3_fingerprint_is_lower_b32_md5 :
    (∀ (env : Env) (p : Patch) (pt : String) (B : List Nat),
      p.url = none → p.path = some pt → p.cached_file_hash = none →
      env.fs pt = some B →
      p.file_hash env =
        (.ok ({ p with cached_file_hash := some (strLower (b32encode (md5 B))) },
              strLower (b32encode (md5 B))), [.readFile pt])) ∧
    (∀ (env₁ env₂ : Env) (p₁ p₂ : Patch) (pt₁ pt₂ : String) (B : List Nat),
      p₁.url = none → p₁.path = some pt₁ → p₁.cached_file_hash = none →
      env₁.fs pt₁ = some B →
      p₂.url = none → p₂.path = some pt₂ → p₂.cached_file_hash = none →
      env₂.fs pt₂ = some B →
      ∃ fp q₁ q₂, p₁.file_hash env₁ = (.ok (q₁, fp), [.readFile pt₁]) ∧
                  p₂.file_hash env₂ = (.ok (q₂, fp), [.readFile pt₂])) := by
  have main : ∀ (env : Env) (p : Patch) (pt : String) (B : List Nat),
      p.url = none → p.path = some pt → p.cached_file_hash = none →
      env.fs pt = some B →
      p.file_hash env =
        (.ok ({ p with cached_file_hash := some (file_hash_bytes B) },
              file_hash_bytes B), [.readFile pt]) := by
    intro env p pt B hu hp hc hB
    unfold Patch.file_hash
    simp only [hc]
    exact file_hash_uncached env p pt B hu hp hB
  refine ⟨fun env p pt B hu hp hc hB => main env p pt B hu hp hc hB, ?_⟩
  intro env₁ env₂ p₁ p₂ pt₁ pt₂ B hu₁ hp₁ hc₁ hB₁ hu₂ hp₂ hc₂ hB₂
  exact ⟨file_hash_bytes B, _, _,
    main env₁ p₁ pt₁ B hu₁ hp₁ hc₁ hB₁, main env₂ p₂ pt₂ B hu₂ hp₂ hc₂ hB₂⟩

/-- C3 witness: the fingerprint of the local patch over bytes `"hi"`. -/
theorem c3_witness :
    patchLocal.file_hash envHi =
      (.ok ({ patchLocal with
               cached_file_hash := some (strLower (b32encode (md5 [104, 105]))) },
            strLower (b32encode (md5 [104, 105]))),
       [.readFile "/spack/repo/foo/fix.patch"]) :=
  c3_fingerprint_is_lower_b32_md5.1 envHi patchLocal "/spack/repo/foo/fix.patch"
    [104, 105] rfl rfl rfl rfl

/-- C4: every successfully constructed Patch has exactly one of
`path`/`url` set; the remote branch is taken exactly when the specifier
contains `://`; and for remote specifiers construction never consults the
environment (no existence or reachability check). -/
theorem c4_exactly_one_of_path_url :
    (∀ (env : Env) (pkgName spec : String) (lvl : PyLevel) (p : Patch),
      Patch.init env pkgName spec lvl = .ok p →
      ((p.url = some spec ∧ p.path = none ∧ pyIn "://" spec = true) ∨
       (p.path = some (join_path (env.dirname_for_package_name pkgName) spec) ∧
        p.url = none ∧ pyIn "://" spec = false))) ∧
    (∀ (env env' : Env) (pkgName spec : String) (lvl : PyLevel),
      pyIn "://" spec = true →
      Patch.init env pkgName spec lvl = Patch.init env' pkgName spec lvl) := by
  constructor
  · intro env pkgName spec lvl p hinit
    simp only [Patch.init] at hinit
    split at hinit
    · exact Except.noConfusion hinit
    · split at hinit
      next hin =>
        injection hinit with h
        subst h
        exact Or.inl ⟨rfl, rfl, hin⟩
      next hin =>
        split at hinit
        · injection hinit with h
          subst h
          exact Or.inr ⟨rfl, rfl, by simpa using hin⟩
        · exact Except.noConfusion hinit
  · intro env env' pkgName spec lvl hin
    by_cases hlb : levelBad lvl = true
    · simp [Patch.init, hlb]
    · simp [Patch.init, hlb, hin]

/-- C4 witness: the remote Patch over `https://example.org/p.patch`. -/
theorem c4_witness :
    (patchRemote.url = some "https://example.org/p.patch" ∧
     patchRemote.path = none ∧ pyIn "://" "https://example.org/p.patch" = true) ∨
    (patchRemote.path =
       some (join_path (envMissing.dirname_for_package_name "foo")
         "https://example.org/p.patch") ∧
     patchRemote.url = none ∧ pyIn "://" "https://example.org/p.patch" = false) :=
  c4_exactly_one_of_path_url.1 envMissing "foo" "https://example.org/p.patch"
    (.int 0) patchRemote rfl

/-- C5: a non-negative integer level together with a valid local specifier
constructs successfully; a negative integer or a non-integer level fails
with the invalid-level `ValueError` of line 56 — independently of the
environment, i.e. before any path resolution or I/O. -/
theorem c5_level_validation :
    (∀ (env : Env) (pkgName spec : String) (n : Int),
      0 ≤ n → pyIn "://" spec = false →
      (env.fs (join_path (env.dirname_for_package_name pkgName) spec)).isSome = true →
      Patch.init env pkgName spec (.int n) =
        .ok { pkg_name := pkgName, path_or_url := spec,
              path := some (join_path (env.dirname_for_package_name pkgName) spec),
              url := none, level := .int n, cached_file_hash := none }) ∧
    (∀ (env : Env) (pkgName spec : String) (n : Int), n < 0 →
      Patch.init env pkgName spec (.int n) =
        .error (.valueError "Patch level needs to be a non-negative integer.")) ∧
    (∀ (env : Env) (pkgName spec : String),
      Patch.init env pkgName spec .nonInt =
        .error (.valueError "Patch level needs to be a non-negative integer.")) ∧
    (∀ (env env' : Env) (pkgName spec : String) (lvl : PyLevel),
      levelBad lvl = true →
      Patch.init env pkgName spec lvl = Patch.init env' pkgName spec lvl) := by
  refine ⟨?_, ?_, ?_, ?_⟩
  · intro env pkgName spec n hn hin hfs
    have hlb : levelBad (.int n) = false := by
      simp only [levelBad, decide_eq_false_iff_not]
      omega
    simp [Patch.init, hlb, hin, hfs]
  · intro env pkgName spec n hn
    have hlb : levelBad (.int n) = true := by
      simp only [levelBad, decide_eq_true_eq]
      omega
    simp [Patch.init, hlb]
  · intro env pkgName spec
    simp [Patch.init, levelBad]
  · intro env env' pkgName spec lvl hlb
    simp [Patch.init, hlb]

/-- C5 witness: level 1 with an existing local file succeeds; level -1 and
a non-integer level fail with the invalid-level error. -/
theorem c5_witness :
    Patch.init envHi "foo" "fix.patch" (.int 1) =
      .ok { pkg_name := "foo", path_or_url := "fix.patch",
            path := some (join_path (envHi.dirname_for_package_name "foo") "fix.patch"),
            url := none, level := .int 1, cached_file_hash := none } ∧
    Patch.init envHi "foo" "fix.patch" (.int (-1)) =
      .error (.valueError "Patch level needs to be a non-negative integer.") ∧
    Patch.init envHi "foo" "fix.patch" .nonInt =
      .error (.valueError "Patch level needs to be a non-negative integer.") :=
  ⟨c5_level_validation.1 envHi "foo" "fix.patch" 1 (by decide) (by decide) rfl,
   c5_level_validation.2.1 envHi "foo" "fix.patch" (-1) (by decide),
   c5_level_validation.2.2.1 envHi "foo" "fix.patch"⟩

/-- C6: on a local patch, `apply()` invokes the tool exactly once, with
the quiet flag `-s`, `-p <stripLevel>` and `-i <patchFilePath>`; but on a
remote patch `apply()` raises `NameError("self")` in `get_url` before any
tool invocation, so the "for every Patch" claim fails there. -/
theorem c6_tool_invocation_args :
    (∀ (env : Env) (p : Patch) (pt : String) (B : List Nat),
      p.url = none → p.path = some pt → env.fs pt = some B →
      (p.apply env).2 =
        [.chdirToSource, .readFile pt,
         .runPatchTool ["-s", "-p", p.level.str, "-i", pt]]) ∧
    (patchRemote.apply envHi).2.filter Event.isToolRun = [] ∧
    patchRemote.apply envHi = (.error (.nameError "self"), [.chdirToSource]) := by
  refine ⟨?_, rfl, rfl⟩
  intro env p pt B hu hp hB
  unfold Patch.apply file_hash
  simp only [hu, hp, hB, Option.getD_some]
  split <;> rfl

/-- C6 witness: the local patch over `"hi"` at level 1. -/
theorem c6_witness :
    (patchLocal.apply envHi).2 =
      [.chdirToSource, .readFile "/spack/repo/foo/fix.patch",
       .runPatchTool ["-s", "-p", "1", "-i", "/spack/repo/foo/fix.patch"]] :=
  c6_tool_invocation_args.1 envHi patchLocal "/spack/repo/foo/fix.patch"
    [104, 105] rfl rfl rfl

/-- C8 counterexample: when the tool exits with status 1 and output
"malformed patch", `apply()` fails with the executable wrapper's raw
process error — not with any `PatchApplyError`, which patch.py never
defines or raises. -/
theorem c8_counterexample_no_patch_apply_error :
    (patchLocal.apply envToolFail).1 =
      .error (.processError ["-s", "-p", "1", "-i", "/spack/repo/foo/fix.patch"]
        1 "malformed patch") ∧
    (PyError.processError ["-s", "-p", "1", "-i", "/spack/repo/foo/fix.patch"]
        1 "malformed patch").isPatchApplyError = false :=
  ⟨rfl, rfl⟩

/-- C8 (amended): if the tool exits non-zero, `apply()` propagates the
process error unchanged — it carries the tool's arguments, exit status and
output, but not the package name, specifier or strip level as dedicated
fields — and the tool is invoked exactly once, with no internal retry. -/
theorem c8_tool_failure_propagates_raw :
    ∀ (env : Env) (p : Patch) (pt : String) (B : List Nat),
      p.url = none → p.path = some pt → env.fs pt = some B →
      (env.tool ["-s", "-p", p.level.str, "-i", pt]).1 ≠ 0 →
      p.apply env =
        (.error (.processError ["-s", "-p", p.level.str, "-i", pt]
            (env.tool ["-s", "-p", p.level.str, "-i", pt]).1
            (env.tool ["-s", "-p", p.level.str, "-i", pt]).2),
         [.chdirToSource, .readFile pt,
          .runPatchTool ["-s", "-p", p.level.str, "-i", pt]]) := by
  intro env p pt B hu hp hB hst
  unfold Patch.apply file_hash
  simp only [hu, hp, hB, Option.getD_some]
  rw [if_neg hst]
  rfl

/-- C8 witness: the failing tool run at status 1, output "malformed
patch". -/
theorem c8_witness :
    patchLocal.apply envToolFail =
      (.error (.processError ["-s", "-p", "1", "-i", "/spack/repo/foo/fix.patch"]
          1 "malformed patch"),
       [.chdirToSource, .readFile "/spack/repo/foo/fix.patch",
        .runPatchTool ["-s", "-p", "1", "-i", "/spack/repo/foo/fix.patch"]]) :=
  c8_tool_failure_propagates_raw envToolFail patchLocal "/spack/repo/foo/fix.patch"
    [104, 105] rfl rfl rfl (by decide)

/-- C10: once a `fingerprint()` call has succeeded, calling it again on
the returned object yields the same object and the same string with an
empty event trace: the cached value is returned without re-acquiring the
patch or re-reading any bytes. -/
theorem c10_fingerprint_cached_idempotent :
    ∀ (env : Env) (p p' : Patch) (h : String) (tr : List Event),
      p.file_hash env = (.ok (p', h), tr) →
      p'.file_hash env = (.ok (p', h), []) := by
  intro env p p' h tr hfh
  obtain ⟨hc, hne⟩ := fileHash_ok_cache env p p' h tr hfh
  unfold Patch.file_hash
  simp only [hc]
  rw [if_neg hne]

/-- C10 witness: the second fingerprint call on the patch over `"hi"`. -/
theorem c10_witness :
    Patch.file_hash
      { patchLocal with
        cached_file_hash := some "jh3iuxeespwcyc7urgbbyip4hm======" } envHi =
      (.ok ({ patchLocal with
              cached_file_hash := some "jh3iuxeespwcyc7urgbbyip4hm======" },
            "jh3iuxeespwcyc7urgbbyip4hm======"), []) :=
  c10_fingerprint_cached_idempotent envHi patchLocal
    { patchLocal with cached_file_hash := some "jh3iuxeespwcyc7urgbbyip4hm======" }
    "jh3iuxeespwcyc7urgbbyip4hm======" [.readFile "/spack/repo/foo/fix.patch"] rfl

end SpackPatch
